import Mathlib

/-!
Verification of the pose-synchronization and parameter-application protocol of
the rapier `Collider` component (src/packages/rapier/src/lib/components/Colliders/Collider.svelte).

The component is glue between a scene graph (three.js), a reactive framework
(Svelte) and a physics engine (rapier).  We embed the component logic as pure
state-transition functions over a model of the collider, recording every call
made into the physics engine and into the shared registries as an explicit
trace.  Scalars are rationals; quaternions follow the three.js conventions
(`invert` on a unit quaternion is the conjugate, `a.premultiply(b) = b * a`).
-/

namespace ThrelteRapier

/-- A 3-vector with rational components, modelling `THREE.Vector3`. -/
structure Vec3 where
  x : ℚ
  y : ℚ
  z : ℚ
deriving DecidableEq, Repr

def Vec3.zero : Vec3 := ⟨0, 0, 0⟩

/-- Componentwise subtraction, modelling `Vector3.sub`. -/
def Vec3.sub (a b : Vec3) : Vec3 := ⟨a.x - b.x, a.y - b.y, a.z - b.z⟩

/-- A quaternion with rational components, modelling `THREE.Quaternion`. -/
structure Quat where
  x : ℚ
  y : ℚ
  z : ℚ
  w : ℚ
deriving DecidableEq, Repr

/-- `new Quaternion()` is the identity quaternion. -/
def Quat.identity : Quat := ⟨0, 0, 0, 1⟩

/-- Hamilton product, the formula of `THREE.Quaternion.multiplyQuaternions(a, b)`.
`a.premultiply(b)` in three.js is `Quat.mul b a`. -/
def Quat.mul (a b : Quat) : Quat :=
  ⟨a.x * b.w + a.w * b.x + a.y * b.z - a.z * b.y,
   a.y * b.w + a.w * b.y + a.z * b.x - a.x * b.z,
   a.z * b.w + a.w * b.z + a.x * b.y - a.y * b.x,
   a.w * b.w - a.x * b.x - a.y * b.y - a.z * b.z⟩

/-- `THREE.Quaternion.invert` computes the conjugate (unit length is assumed
by three.js). -/
def Quat.invert (q : Quat) : Quat := ⟨-q.x, -q.y, -q.z, q.w⟩

/-- `CoefficientCombineRule` of the physics engine. -/
inductive CoefficientCombineRule where
  | Average
  | Min
  | Multiply
  | Max
deriving DecidableEq, Repr

/-- Active collision types: the engine default versus the `ALL` flag set the
component always applies. -/
inductive ActiveCollisionTypes where
  | DEFAULT
  | ALL
deriving DecidableEq, Repr

/-- The full mass-properties record of the `massProperties` prop. -/
structure MassPropertiesValue where
  mass : ℚ
  centerOfMass : Vec3
  principalAngularInertia : Vec3
  angularInertiaLocalFrame : Quat
deriving DecidableEq, Repr

/-- One call into the physics engine or a shared registry, as issued by the
component.  Traces of these calls let us state how often each operation runs. -/
inductive Call where
  | createCollider
  | addColliderToContext
  | registerColliders
  | setTranslation (p : Vec3)
  | setRotation (q : Quat)
  | setTranslationWrtParent (p : Vec3)
  | setRotationWrtParent (q : Quat)
  | applyColliderActiveEvents
  | setActiveCollisionTypes (t : ActiveCollisionTypes)
  | setRestitution (r : ℚ)
  | setContactForceEventThreshold (t : ℚ)
  | setRestitutionCombineRule (r : CoefficientCombineRule)
  | setFriction (f : ℚ)
  | setFrictionCombineRule (r : CoefficientCombineRule)
  | setSensor (b : Bool)
  | setDensity (d : ℚ)
  | setMass (m : ℚ)
  | setMassProperties (mp : MassPropertiesValue)
  | removeColliderFromContext
  | removeColliders
  | removeColliderFromWorld (wakeUp : Bool)
deriving DecidableEq, Repr

/-- The modelled state of a rapier collider: its world pose, its pose relative
to a parent rigid body, and the material and behavior parameters the component
can set.  `density`, `mass` and `massProperties` are `none` while the engine
default is untouched. -/
structure ColliderState where
  translation : Vec3
  rotation : Quat
  translationWrtParent : Vec3
  rotationWrtParent : Quat
  restitution : ℚ
  restitutionCombineRule : CoefficientCombineRule
  friction : ℚ
  frictionCombineRule : CoefficientCombineRule
  sensor : Bool
  activeCollisionTypes : ActiveCollisionTypes
  contactForceEventThreshold : ℚ
  density : Option ℚ
  mass : Option ℚ
  massProperties : Option MassPropertiesValue
deriving DecidableEq, Repr

/-- A freshly created collider (`world.createCollider`), before the component
sets anything on it: engine defaults. -/
def ColliderState.fresh : ColliderState where
  translation := Vec3.zero
  rotation := Quat.identity
  translationWrtParent := Vec3.zero
  rotationWrtParent := Quat.identity
  restitution := 0
  restitutionCombineRule := .Average
  friction := 1/2
  frictionCombineRule := .Average
  sensor := false
  activeCollisionTypes := .DEFAULT
  contactForceEventThreshold := 0
  density := none
  mass := none
  massProperties := none

def ColliderState.setTranslation (c : ColliderState) (v : Vec3) : ColliderState :=
  { c with translation := v }

def ColliderState.setRotation (c : ColliderState) (q : Quat) : ColliderState :=
  { c with rotation := q }

def ColliderState.setTranslationWrtParent (c : ColliderState) (v : Vec3) : ColliderState :=
  { c with translationWrtParent := v }

def ColliderState.setRotationWrtParent (c : ColliderState) (q : Quat) : ColliderState :=
  { c with rotationWrtParent := q }

def ColliderState.setActiveCollisionTypes (c : ColliderState) (t : ActiveCollisionTypes) :
    ColliderState :=
  { c with activeCollisionTypes := t }

def ColliderState.setRestitution (c : ColliderState) (r : ℚ) : ColliderState :=
  { c with restitution := r }

def ColliderState.setContactForceEventThreshold (c : ColliderState) (t : ℚ) : ColliderState :=
  { c with contactForceEventThreshold := t }

def ColliderState.setRestitutionCombineRule (c : ColliderState) (r : CoefficientCombineRule) :
    ColliderState :=
  { c with restitutionCombineRule := r }

def ColliderState.setFriction (c : ColliderState) (f : ℚ) : ColliderState :=
  { c with friction := f }

def ColliderState.setFrictionCombineRule (c : ColliderState) (r : CoefficientCombineRule) :
    ColliderState :=
  { c with frictionCombineRule := r }

def ColliderState.setSensor (c : ColliderState) (b : Bool) : ColliderState :=
  { c with sensor := b }

def ColliderState.setDensity (c : ColliderState) (d : ℚ) : ColliderState :=
  { c with density := some d }

def ColliderState.setMass (c : ColliderState) (m : ℚ) : ColliderState :=
  { c with mass := some m }

def ColliderState.setMassProperties (c : ColliderState) (mp : MassPropertiesValue) :
    ColliderState :=
  { c with massProperties := some mp }

/-- One ancestor of the component's node in the scene graph, as seen by
`object.traverseAncestors`: its world transform and whether its
`userData.isRigidBody` flag is set. -/
structure Ancestor where
  worldPos : Vec3
  worldQuat : Quat
  isRigidBody : Bool
deriving DecidableEq, Repr

/-- The ancestor walk of the attached branch of `onMount`: `traverseAncestors`
visits ancestors from the direct parent up to the root, and on every flagged
ancestor overwrites `rigidBodyWorldPos` with that ancestor's world position and
`rigidBodyWorldQuatInversed` with the inverse of its world quaternion.  The
accumulators start as the zero vector and the identity quaternion. -/
def traverseCapture (ancestors : List Ancestor) : Vec3 × Quat :=
  ancestors.foldl
    (fun acc child =>
      if child.isRigidBody then (child.worldPos, child.worldQuat.invert) else acc)
    (Vec3.zero, Quat.identity)

/-- Modelled from the spec: §4.2 says the attached-mode offset is "computed by
finding the nearest ancestor flagged as a rigid-body anchor, taking its world
position and the inverse of its world rotation".  The nearest flagged ancestor
is the first one `traverseAncestors` visits. -/
def specNearestAnchorCapture (ancestors : List Ancestor) : Vec3 × Quat :=
  match ancestors.find? (fun a => a.isRigidBody) with
  | some a => (a.worldPos, a.worldQuat.invert)
  | none => (Vec3.zero, Quat.identity)

/-- The `onMount` body: create the collider, register it with the world
context and the collision-group registry, then set its pose.  `isAttached`
selects the branch; `objPos`/`objQuat` are the node's world position and world
quaternion at mount time; `ancestors` is the node's ancestor chain from direct
parent to root. -/
def onMount (isAttached : Bool) (objPos : Vec3) (objQuat : Quat)
    (ancestors : List Ancestor) : ColliderState × List Call :=
  let c := ColliderState.fresh
  if isAttached then
    let cap := traverseCapture ancestors
    let worldPosition := objPos.sub cap.1
    let worldRotation := Quat.mul cap.2 objQuat
    ((c.setTranslationWrtParent worldPosition).setRotationWrtParent worldRotation,
     [.createCollider, .addColliderToContext, .registerColliders,
      .setTranslationWrtParent worldPosition, .setRotationWrtParent worldRotation])
  else
    ((c.setTranslation objPos).setRotation objQuat,
     [.createCollider, .addColliderToContext, .registerColliders,
      .setTranslation objPos, .setRotation objQuat])

/-- The component props read by the reactive material block; `none` models an
unset (`undefined`) prop. -/
structure MaterialProps where
  restitution : Option ℚ
  restitutionCombineRule : Option CoefficientCombineRule
  friction : Option ℚ
  frictionCombineRule : Option CoefficientCombineRule
  sensor : Option Bool
  contactForceEventThreshold : Option ℚ
  density : Option ℚ
  mass : Option ℚ
  massProperties : Option MassPropertiesValue
deriving DecidableEq, Repr

/-- A component with every material/behavior prop unset. -/
def MaterialProps.unset : MaterialProps :=
  ⟨none, none, none, none, none, none, none, none, none⟩

/-- The unconditional prefix of the reactive block, as state update: lines
198–205 of the component.  Note the threshold is first set to `1` and then
overwritten with `contactForceEventThreshold ?? 0`. -/
def baseApply (c : ColliderState) (p : MaterialProps) : ColliderState :=
  let c := c.setActiveCollisionTypes ActiveCollisionTypes.ALL
  let c := c.setRestitution (p.restitution.getD 0)
  let c := c.setContactForceEventThreshold 1
  let c := c.setRestitutionCombineRule (p.restitutionCombineRule.getD .Average)
  let c := c.setFriction (p.friction.getD (7/10))
  let c := c.setFrictionCombineRule (p.frictionCombineRule.getD .Average)
  let c := c.setSensor (p.sensor.getD false)
  c.setContactForceEventThreshold (p.contactForceEventThreshold.getD 0)

/-- The calls issued by the unconditional prefix of the reactive block, in
source order. -/
def baseCalls (p : MaterialProps) : List Call :=
  [.applyColliderActiveEvents,
   .setActiveCollisionTypes ActiveCollisionTypes.ALL,
   .setRestitution (p.restitution.getD 0),
   .setContactForceEventThreshold 1,
   .setRestitutionCombineRule (p.restitutionCombineRule.getD .Average),
   .setFriction (p.friction.getD (7/10)),
   .setFrictionCombineRule (p.frictionCombineRule.getD .Average),
   .setSensor (p.sensor.getD false),
   .setContactForceEventThreshold (p.contactForceEventThreshold.getD 0)]

/-- `if (density) collider.setDensity(density)`: a JavaScript truthiness
guard, so an unset prop and a zero prop both skip the setter. -/
def densityStep (c : ColliderState) (density : Option ℚ) : ColliderState × List Call :=
  match density with
  | some d => if d = 0 then (c, []) else (c.setDensity d, [.setDensity d])
  | none => (c, [])

/-- `if (mass) collider.setMass(mass)`: same truthiness guard. -/
def massStep (c : ColliderState) (mass : Option ℚ) : ColliderState × List Call :=
  match mass with
  | some m => if m = 0 then (c, []) else (c.setMass m, [.setMass m])
  | none => (c, [])

/-- `if (massProperties) collider.setMassProperties(...)`: an object prop is
truthy exactly when it is defined. -/
def massPropertiesStep (c : ColliderState) (mp : Option MassPropertiesValue) :
    ColliderState × List Call :=
  match mp with
  | some v => (c.setMassProperties v, [.setMassProperties v])
  | none => (c, [])

/-- The body of the reactive `$:` block applied to an existing collider
(lines 193–214). -/
def applyMaterial (c : ColliderState) (p : MaterialProps) : ColliderState × List Call :=
  let c8 := baseApply c p
  let s1 := densityStep c8 p.density
  let s2 := massStep s1.1 p.mass
  let s3 := massPropertiesStep s2.1 p.massProperties
  (s3.1, baseCalls p ++ s1.2 ++ s2.2 ++ s3.2)

/-- The reactive `$:` block: guarded by `if (collider)`, a no-op while the
collider does not exist yet. -/
def reactiveBlock (collider : Option ColliderState) (p : MaterialProps) :
    Option ColliderState × List Call :=
  match collider with
  | none => (none, [])
  | some c =>
    let r := applyMaterial c p
    (some r.1, r.2)

/-- The `useFrame` handler: guarded by `if (!collider) return`, otherwise it
copies the node's current world position and world quaternion into the
collider. -/
def frameCallback (collider : Option ColliderState) (objPos : Vec3) (objQuat : Quat) :
    Option ColliderState × List Call :=
  match collider with
  | none => (none, [])
  | some c => (some ((c.setTranslation objPos).setRotation objQuat),
               [.setTranslation objPos, .setRotation objQuat])

/-- One simulation frame as the component experiences it: the handler is
registered with `autostart: !isAttached` and the component never starts it by
hand, so in attached mode the handler does not run at all. -/
def simFrame (isAttached : Bool) (collider : Option ColliderState)
    (objPos : Vec3) (objQuat : Quat) : Option ColliderState × List Call :=
  if isAttached then (collider, [])
  else frameCallback collider objPos objQuat

/-- Run a sequence of simulation frames; each frame supplies the node's world
pose as read at that frame's callback.  Accumulates the call trace. -/
def runFrames (isAttached : Bool) (st : Option ColliderState × List Call)
    (frames : List (Vec3 × Quat)) : Option ColliderState × List Call :=
  frames.foldl
    (fun s f =>
      let r := simFrame isAttached s.1 f.1 f.2
      (r.1, s.2 ++ r.2))
    st

/-- The `onDestroy` body: guarded by `if (!collider) return`, otherwise it
deregisters the collider from the world context and the collision-group
registry and removes it from the physics world, waking affected bodies. -/
def onDestroy (collider : Option ColliderState) : List Call :=
  match collider with
  | none => []
  | some _ =>
    [.removeColliderFromContext, .removeColliders, .removeColliderFromWorld true]

/-- Recognizer for contact-force-threshold calls in a trace. -/
def Call.isSetContactForceEventThreshold : Call → Bool
  | .setContactForceEventThreshold _ => true
  | _ => false

/-- Recognizer for `setDensity` calls in a trace. -/
def Call.isSetDensity : Call → Bool
  | .setDensity _ => true
  | _ => false

/-- Recognizer for `setMass` calls in a trace. -/
def Call.isSetMass : Call → Bool
  | .setMass _ => true
  | _ => false

/-- Recognizer for `setMassProperties` calls in a trace. -/
def Call.isSetMassProperties : Call → Bool
  | .setMassProperties _ => true
  | _ => false

/-- Recognizer for `setTranslationWrtParent` calls in a trace. -/
def Call.isSetTranslationWrtParent : Call → Bool
  | .setTranslationWrtParent _ => true
  | _ => false

/-- Recognizer for `setRotationWrtParent` calls in a trace. -/
def Call.isSetRotationWrtParent : Call → Bool
  | .setRotationWrtParent _ => true
  | _ => false

/-- Recognizer for world-removal calls in a trace. -/
def Call.isRemoveColliderFromWorld : Call → Bool
  | .removeColliderFromWorld _ => true
  | _ => false

/-!  Helper lemmas about the conditional mass-configuration steps. -/

lemma densityStep_none (c : ColliderState) : densityStep c none = (c, []) := rfl

lemma densityStep_zero (c : ColliderState) : densityStep c (some 0) = (c, []) := by
  simp [densityStep]

lemma massStep_none (c : ColliderState) : massStep c none = (c, []) := rfl

lemma massStep_zero (c : ColliderState) : massStep c (some 0) = (c, []) := by
  simp [massStep]

lemma densityStep_threshold (c : ColliderState) (x : Option ℚ) :
    (densityStep c x).1.contactForceEventThreshold = c.contactForceEventThreshold := by
  cases x with
  | none => rfl
  | some d =>
    by_cases hd : d = 0 <;>
      simp [densityStep, hd, ColliderState.setDensity]

lemma massStep_threshold (c : ColliderState) (x : Option ℚ) :
    (massStep c x).1.contactForceEventThreshold = c.contactForceEventThreshold := by
  cases x with
  | none => rfl
  | some m =>
    by_cases hm : m = 0 <;>
      simp [massStep, hm, ColliderState.setMass]

lemma massPropertiesStep_threshold (c : ColliderState) (x : Option MassPropertiesValue) :
    (massPropertiesStep c x).1.contactForceEventThreshold = c.contactForceEventThreshold := by
  cases x with
  | none => rfl
  | some mp => simp [massPropertiesStep, ColliderState.setMassProperties]

lemma densityStep_filter_mass (c : ColliderState) (x : Option ℚ) :
    (densityStep c x).2.filter Call.isSetMass = [] := by
  cases x with
  | none => rfl
  | some d =>
    by_cases hd : d = 0 <;> simp [densityStep, hd, Call.isSetMass]

lemma densityStep_filter_massProperties (c : ColliderState) (x : Option ℚ) :
    (densityStep c x).2.filter Call.isSetMassProperties = [] := by
  cases x with
  | none => rfl
  | some d =>
    by_cases hd : d = 0 <;> simp [densityStep, hd, Call.isSetMassProperties]

lemma massStep_filter_density (c : ColliderState) (x : Option ℚ) :
    (massStep c x).2.filter Call.isSetDensity = [] := by
  cases x with
  | none => rfl
  | some m =>
    by_cases hm : m = 0 <;> simp [massStep, hm, Call.isSetDensity]

lemma massStep_filter_massProperties (c : ColliderState) (x : Option ℚ) :
    (massStep c x).2.filter Call.isSetMassProperties = [] := by
  cases x with
  | none => rfl
  | some m =>
    by_cases hm : m = 0 <;> simp [massStep, hm, Call.isSetMassProperties]

lemma massPropertiesStep_filter_density (c : ColliderState) (x : Option MassPropertiesValue) :
    (massPropertiesStep c x).2.filter Call.isSetDensity = [] := by
  cases x with
  | none => rfl
  | some mp => simp [massPropertiesStep, Call.isSetDensity]

lemma massPropertiesStep_filter_mass (c : ColliderState) (x : Option MassPropertiesValue) :
    (massPropertiesStep c x).2.filter Call.isSetMass = [] := by
  cases x with
  | none => rfl
  | some mp => simp [massPropertiesStep, Call.isSetMass]

lemma densityStep_filter_threshold (c : ColliderState) (x : Option ℚ) :
    (densityStep c x).2.filter Call.isSetContactForceEventThreshold = [] := by
  cases x with
  | none => rfl
  | some d =>
    by_cases hd : d = 0 <;>
      simp [densityStep, hd, Call.isSetContactForceEventThreshold]

lemma massStep_filter_threshold (c : ColliderState) (x : Option ℚ) :
    (massStep c x).2.filter Call.isSetContactForceEventThreshold = [] := by
  cases x with
  | none => rfl
  | some m =>
    by_cases hm : m = 0 <;>
      simp [massStep, hm, Call.isSetContactForceEventThreshold]

lemma massPropertiesStep_filter_threshold (c : ColliderState) (x : Option MassPropertiesValue) :
    (massPropertiesStep c x).2.filter Call.isSetContactForceEventThreshold = [] := by
  cases x with
  | none => rfl
  | some mp => simp [massPropertiesStep, Call.isSetContactForceEventThreshold]

/-- Claim C6: every collider-mutating operation invoked before initialization
completes is a safe no-op.  With the collider still `none`, the per-frame
sync, the reactive material application and the teardown each return an
unchanged state and an empty call trace: zero calls reach the physics world
or the registries. -/
theorem preInit_operations_are_noops (p : MaterialProps) (v : Vec3) (q : Quat) :
    frameCallback none v q = (none, []) ∧
    reactiveBlock none p = (none, []) ∧
    onDestroy none = [] :=
  ⟨rfl, rfl, rfl⟩

/-- Claim C7: unmounting after initialization removes the collider from the
world-context registry exactly once, from the collision-group registry exactly
once, and issues exactly one world-removal call, with the wake-up flag set. -/
theorem teardown_removes_exactly_once (c : ColliderState) :
    (onDestroy (some c)).countP (fun x => x == Call.removeColliderFromContext) = 1 ∧
    (onDestroy (some c)).countP (fun x => x == Call.removeColliders) = 1 ∧
    (onDestroy (some c)).filter Call.isRemoveColliderFromWorld =
      [Call.removeColliderFromWorld true] :=
  ⟨rfl, rfl, rfl⟩

/-- Claim C5: with no material/behavior overrides, every reactive parameter
application leaves the collider with restitution 0, friction 0.7, both
combine rules Average, sensor off and active collision types ALL. -/
theorem default_material_values (c : ColliderState) :
    ∃ c', (reactiveBlock (some c) MaterialProps.unset).1 = some c' ∧
      c'.restitution = 0 ∧
      c'.friction = 7/10 ∧
      c'.restitutionCombineRule = CoefficientCombineRule.Average ∧
      c'.frictionCombineRule = CoefficientCombineRule.Average ∧
      c'.sensor = false ∧
      c'.activeCollisionTypes = ActiveCollisionTypes.ALL :=
  ⟨_, rfl, rfl, rfl, rfl, rfl, rfl, rfl⟩

/-- Claim C8: in every reactive material application the contact-force-event
threshold is first set to the fixed value 1 and later overwritten; the final
authoritative value on the collider is the user-supplied
`contactForceEventThreshold` when set, otherwise 0. -/
theorem threshold_set_then_overwritten (c : ColliderState) (p : MaterialProps) :
    (reactiveBlock (some c) p).2.filter Call.isSetContactForceEventThreshold =
      [Call.setContactForceEventThreshold 1,
       Call.setContactForceEventThreshold (p.contactForceEventThreshold.getD 0)] ∧
    ∃ c', (reactiveBlock (some c) p).1 = some c' ∧
      c'.contactForceEventThreshold = p.contactForceEventThreshold.getD 0 := by
  constructor
  · simp [reactiveBlock, applyMaterial, List.filter_append,
      densityStep_filter_threshold, massStep_filter_threshold,
      massPropertiesStep_filter_threshold, baseCalls,
      Call.isSetContactForceEventThreshold]
  · refine ⟨_, rfl, ?_⟩
    simp [reactiveBlock, applyMaterial, massPropertiesStep_threshold,
      massStep_threshold, densityStep_threshold, baseApply,
      ColliderState.setContactForceEventThreshold]

/-- Claim C9: supplying `density = 0` (or `mass = 0`) is indistinguishable
from leaving the prop unset: the reactive block produces the identical state
and trace, and the corresponding setter is never called, because the code
guards with a truthiness check. -/
theorem zero_mass_config_is_unset (c : ColliderState) (p : MaterialProps) :
    reactiveBlock (some c) { p with density := some 0 } =
      reactiveBlock (some c) { p with density := none } ∧
    reactiveBlock (some c) { p with mass := some 0 } =
      reactiveBlock (some c) { p with mass := none } ∧
    (reactiveBlock (some c) { p with density := some 0 }).2.filter Call.isSetDensity = [] ∧
    (reactiveBlock (some c) { p with mass := some 0 }).2.filter Call.isSetMass = [] := by
  refine ⟨?_, ?_, ?_, ?_⟩
  · simp [reactiveBlock, applyMaterial, densityStep_zero, densityStep_none, baseApply, baseCalls]
  · simp [reactiveBlock, applyMaterial, massStep_zero, massStep_none, baseApply, baseCalls]
  · simp [reactiveBlock, applyMaterial, densityStep_zero, List.filter_append, baseCalls,
      Call.isSetDensity, massStep_filter_density, massPropertiesStep_filter_density]
  · simp [reactiveBlock, applyMaterial, massStep_zero, List.filter_append, baseCalls,
      Call.isSetMass, densityStep_filter_mass, massPropertiesStep_filter_mass]

/-- Claim C4, counterexample: supplying `density = 0` (with `mass` and
`massProperties` unset) supplies exactly one mass-configuration prop, yet the
reactive block never calls `setDensity`, so the supplied one is not applied:
the claim as stated fails on the truthiness guard. -/
theorem mass_exclusivity_counterexample :
    ({ MaterialProps.unset with density := some 0 } : MaterialProps).density.isSome = true ∧
    ({ MaterialProps.unset with density := some 0 } : MaterialProps).mass = none ∧
    ({ MaterialProps.unset with density := some 0 } : MaterialProps).massProperties = none ∧
    (reactiveBlock (some ColliderState.fresh)
        { MaterialProps.unset with density := some 0 }).2.filter Call.isSetDensity = [] := by
  refine ⟨rfl, rfl, rfl, ?_⟩
  simp [reactiveBlock, applyMaterial, densityStep_zero, massStep_none,
    massPropertiesStep, List.filter_append, baseCalls, Call.isSetDensity,
    MaterialProps.unset]

/-- Claim C4, amended: for every update in which exactly one of density,
mass, massProperties is supplied with a truthy value (non-zero for the two
numeric props), only that prop's setter is called, exactly once and with the
supplied value, and the setters of the other two are never called. -/
theorem mass_exclusivity (c : ColliderState) (p : MaterialProps) (d m : ℚ)
    (mp : MassPropertiesValue) (hd : d ≠ 0) (hm : m ≠ 0) :
    ((reactiveBlock (some c)
        { p with density := some d, mass := none, massProperties := none }).2.filter
          Call.isSetDensity = [Call.setDensity d] ∧
     (reactiveBlock (some c)
        { p with density := some d, mass := none, massProperties := none }).2.filter
          Call.isSetMass = [] ∧
     (reactiveBlock (some c)
        { p with density := some d, mass := none, massProperties := none }).2.filter
          Call.isSetMassProperties = []) ∧
    ((reactiveBlock (some c)
        { p with density := none, mass := some m, massProperties := none }).2.filter
          Call.isSetMass = [Call.setMass m] ∧
     (reactiveBlock (some c)
        { p with density := none, mass := some m, massProperties := none }).2.filter
          Call.isSetDensity = [] ∧
     (reactiveBlock (some c)
        { p with density := none, mass := some m, massProperties := none }).2.filter
          Call.isSetMassProperties = []) ∧
    ((reactiveBlock (some c)
        { p with density := none, mass := none, massProperties := some mp }).2.filter
          Call.isSetMassProperties = [Call.setMassProperties mp] ∧
     (reactiveBlock (some c)
        { p with density := none, mass := none, massProperties := some mp }).2.filter
          Call.isSetDensity = [] ∧
     (reactiveBlock (some c)
        { p with density := none, mass := none, massProperties := some mp }).2.filter
          Call.isSetMass = []) := by
  refine ⟨⟨?_, ?_, ?_⟩, ⟨?_, ?_, ?_⟩, ⟨?_, ?_, ?_⟩⟩ <;>
    simp [reactiveBlock, applyMaterial, densityStep, massStep, massPropertiesStep,
      hd, hm, List.filter_append, baseCalls, Call.isSetDensity, Call.isSetMass,
      Call.isSetMassProperties]

/-- Witness for the amended claim C4 at the spec's own example: `density = 2.5`
with mass and massProperties unset calls `setDensity(2.5)` once and never
calls `setMass` or `setMassProperties`. -/
theorem mass_exclusivity_witness :
    (5/2 : ℚ) ≠ 0 ∧
    (reactiveBlock (some ColliderState.fresh)
        { MaterialProps.unset with
            density := some (5/2), mass := none, massProperties := none }).2.filter
          Call.isSetDensity = [Call.setDensity (5/2)] ∧
    (reactiveBlock (some ColliderState.fresh)
        { MaterialProps.unset with
            density := some (5/2), mass := none, massProperties := none }).2.filter
          Call.isSetMass = [] ∧
    (reactiveBlock (some ColliderState.fresh)
        { MaterialProps.unset with
            density := some (5/2), mass := none, massProperties := none }).2.filter
          Call.isSetMassProperties = [] := by
  have h := mass_exclusivity ColliderState.fresh MaterialProps.unset (5/2) 1
    ⟨1, Vec3.zero, Vec3.zero, Quat.identity⟩ (by norm_num) (by norm_num)
  exact ⟨by norm_num, h.1.1, h.1.2.1, h.1.2.2⟩

lemma runFrames_false_aux (frames : List (Vec3 × Quat)) :
    ∀ (c : ColliderState) (acc : List Call) (h : frames ≠ []),
      (runFrames false (some c, acc) frames).1.map
          (fun s => (s.translation, s.rotation)) = some (frames.getLast h) := by
  induction frames with
  | nil => intro c acc h; exact absurd rfl h
  | cons f rest ih =>
    intro c acc h
    cases rest with
    | nil =>
      simp [runFrames, simFrame, frameCallback,
        ColliderState.setTranslation, ColliderState.setRotation]
    | cons g rest2 =>
      have h2 : g :: rest2 ≠ [] := by simp
      have step : runFrames false (some c, acc) (f :: g :: rest2) =
          runFrames false
            (some ((c.setTranslation f.1).setRotation f.2),
             acc ++ [Call.setTranslation f.1, Call.setRotation f.2]) (g :: rest2) := rfl
      rw [step, ih _ _ h2]
      rw [List.getLast_cons h2]

lemma runFrames_true_id (frames : List (Vec3 × Quat)) :
    ∀ st : Option ColliderState × List Call, runFrames true st frames = st := by
  induction frames with
  | nil => intro st; rfl
  | cons f rest ih =>
    intro st
    have step : runFrames true st (f :: rest) =
        runFrames true (st.1, st.2 ++ []) rest := rfl
    rw [step]
    simpa using ih (st.1, st.2)

/-- Claim C1: for an unattached component, after every simulation-frame
callback the collider's translation and rotation equal the node's world
position and world rotation as read at that callback, for every frame
sequence regardless of intermediate frames. -/
theorem unattached_pose_tracks_node (c : ColliderState) (frames : List (Vec3 × Quat))
    (h : frames ≠ []) :
    (runFrames false (some c, []) frames).1.map
        (fun s => (s.translation, s.rotation)) = some (frames.getLast h) :=
  runFrames_false_aux frames c [] h

/-- Witness for claim C1: two concrete frames; after the second callback the
collider holds the pose read at that callback. -/
theorem unattached_pose_tracks_node_witness :
    (runFrames false (some ColliderState.fresh, [])
        [((⟨1, 2, 3⟩ : Vec3), Quat.identity), ((⟨4, 5, 6⟩ : Vec3), Quat.identity)]).1.map
        (fun s => (s.translation, s.rotation)) =
      some ((⟨4, 5, 6⟩ : Vec3), Quat.identity) := by
  have h := unattached_pose_tracks_node ColliderState.fresh
    [((⟨1, 2, 3⟩ : Vec3), Quat.identity), ((⟨4, 5, 6⟩ : Vec3), Quat.identity)]
    (by simp)
  rw [h]
  rfl

/-- Claim C2: for an attached component, the relative pose is set exactly once
(one `setTranslationWrtParent` and one `setRotationWrtParent` call during
initialization, carrying exactly the pose the collider ends up with), and an
arbitrary sequence of subsequent simulation frames leaves the collider state
untouched and issues no further engine calls — the frame handler is registered
with autostart off, and even the node's transform changing on those frames has
no effect. -/
theorem attached_pose_set_once (objPos : Vec3) (objQuat : Quat)
    (ancestors : List Ancestor) (frames : List (Vec3 × Quat)) :
    (onMount true objPos objQuat ancestors).2.filter Call.isSetTranslationWrtParent =
      [Call.setTranslationWrtParent
        ((onMount true objPos objQuat ancestors).1.translationWrtParent)] ∧
    (onMount true objPos objQuat ancestors).2.filter Call.isSetRotationWrtParent =
      [Call.setRotationWrtParent
        ((onMount true objPos objQuat ancestors).1.rotationWrtParent)] ∧
    runFrames true (some (onMount true objPos objQuat ancestors).1, []) frames =
      (some (onMount true objPos objQuat ancestors).1, []) := by
  refine ⟨?_, ?_, runFrames_true_id frames _⟩ <;>
    simp [onMount, Call.isSetTranslationWrtParent, Call.isSetRotationWrtParent,
      ColliderState.setTranslationWrtParent, ColliderState.setRotationWrtParent]

lemma captureFold_noAnchor (l : List Ancestor) :
    ∀ init : Vec3 × Quat, (∀ a ∈ l, a.isRigidBody = false) →
      l.foldl
        (fun acc child =>
          if child.isRigidBody then (child.worldPos, child.worldQuat.invert) else acc)
        init = init := by
  induction l with
  | nil => intro init _; rfl
  | cons x xs ih =>
    intro init h
    have hx : x.isRigidBody = false := h x (List.mem_cons_self x xs)
    have hxs : ∀ a ∈ xs, a.isRigidBody = false := fun a ha => h a (List.mem_cons_of_mem x ha)
    simp only [List.foldl_cons, hx, Bool.false_eq_true, if_false]
    exact ih init hxs

lemma captureFold_last (l : List Ancestor) :
    ∀ (init : Vec3 × Quat) (a : Ancestor),
      (l.filter (fun x => x.isRigidBody)).getLast? = some a →
      l.foldl
        (fun acc child =>
          if child.isRigidBody then (child.worldPos, child.worldQuat.invert) else acc)
        init = (a.worldPos, a.worldQuat.invert) := by
  induction l with
  | nil => intro init a h; simp at h
  | cons x xs ih =>
    intro init a h
    by_cases hx : x.isRigidBody
    · rw [List.filter_cons_of_pos hx] at h
      simp only [List.foldl_cons, hx, if_true]
      cases hxs : xs.filter (fun x => x.isRigidBody) with
      | nil =>
        rw [hxs] at h
        simp only [List.getLast?_singleton, Option.some.injEq] at h
        subst h
        exact captureFold_noAnchor xs _ (by
          intro b hb
          by_contra hb'
          have : b ∈ xs.filter (fun x => x.isRigidBody) :=
            List.mem_filter.mpr ⟨hb, by simpa using hb'⟩
          rw [hxs] at this
          exact absurd this (List.not_mem_nil b))
      | cons y ys =>
        rw [hxs, List.getLast?_cons_cons] at h
        exact ih _ a (by rw [hxs]; exact h)
    · rw [List.filter_cons_of_neg hx] at h
      simp only [List.foldl_cons, hx, if_false]
      exact ih init a h

/-- Claim C3, counterexample: with two flagged ancestors — the nearest at
world position (1,0,0), the farthest at (2,0,0) — and the node at (5,0,0),
the code stores relative translation (3,0,0), computed from the farthest
flagged ancestor, while the nearest-anchor reading of the spec demands
(4,0,0). -/
theorem nearest_anchor_counterexample :
    (onMount true ⟨5, 0, 0⟩ Quat.identity
        [⟨⟨1, 0, 0⟩, Quat.identity, true⟩,
         ⟨⟨2, 0, 0⟩, Quat.identity, true⟩]).1.translationWrtParent = ⟨3, 0, 0⟩ ∧
    (⟨5, 0, 0⟩ : Vec3).sub
        (specNearestAnchorCapture
          [⟨⟨1, 0, 0⟩, Quat.identity, true⟩,
           ⟨⟨2, 0, 0⟩, Quat.identity, true⟩]).1 = ⟨4, 0, 0⟩ ∧
    (⟨3, 0, 0⟩ : Vec3) ≠ ⟨4, 0, 0⟩ := by
  have e1 : (onMount true ⟨5, 0, 0⟩ Quat.identity
      [⟨⟨1, 0, 0⟩, Quat.identity, true⟩,
       ⟨⟨2, 0, 0⟩, Quat.identity, true⟩]).1.translationWrtParent =
      (⟨5, 0, 0⟩ : Vec3).sub ⟨2, 0, 0⟩ := rfl
  have e2 : (⟨5, 0, 0⟩ : Vec3).sub
      (specNearestAnchorCapture
        [⟨⟨1, 0, 0⟩, Quat.identity, true⟩,
         ⟨⟨2, 0, 0⟩, Quat.identity, true⟩]).1 =
      (⟨5, 0, 0⟩ : Vec3).sub ⟨1, 0, 0⟩ := rfl
  refine ⟨?_, ?_, ?_⟩
  · rw [e1]; simp [Vec3.sub]; norm_num
  · rw [e2]; simp [Vec3.sub]; norm_num
  · intro hcontra
    have : (3 : ℚ) = 4 := congrArg Vec3.x hcontra
    norm_num at this

/-- Claim C3, amended: in attached mode the relative pose set at
initialization is computed with respect to the LAST flagged ancestor the
traversal visits, i.e. the farthest (root-most) one, since the callback
overwrites the captured transform on every flagged ancestor: the relative
translation is the node's world position minus that ancestor's world
position, the relative rotation that ancestor's inverted world quaternion
times the node's world quaternion. -/
theorem attached_pose_wrt_last_anchor (ancestors : List Ancestor) (a : Ancestor)
    (objPos : Vec3) (objQuat : Quat)
    (h : (ancestors.filter (fun x => x.isRigidBody)).getLast? = some a) :
    traverseCapture ancestors = (a.worldPos, a.worldQuat.invert) ∧
    (onMount true objPos objQuat ancestors).1.translationWrtParent =
      objPos.sub a.worldPos ∧
    (onMount true objPos objQuat ancestors).1.rotationWrtParent =
      Quat.mul a.worldQuat.invert objQuat := by
  have hc : traverseCapture ancestors = (a.worldPos, a.worldQuat.invert) :=
    captureFold_last ancestors (Vec3.zero, Quat.identity) a h
  refine ⟨hc, ?_, ?_⟩ <;>
    simp [onMount, hc, ColliderState.setTranslationWrtParent,
      ColliderState.setRotationWrtParent]

/-- Witness for the amended claim C3 at the counterexample input: the capture
is the farthest flagged ancestor, at world position (2,0,0). -/
theorem attached_pose_wrt_last_anchor_witness :
    (([⟨⟨1, 0, 0⟩, Quat.identity, true⟩,
       ⟨⟨2, 0, 0⟩, Quat.identity, true⟩] : List Ancestor).filter
        (fun x => x.isRigidBody)).getLast? =
      some ⟨⟨2, 0, 0⟩, Quat.identity, true⟩ ∧
    traverseCapture
        [⟨⟨1, 0, 0⟩, Quat.identity, true⟩, ⟨⟨2, 0, 0⟩, Quat.identity, true⟩] =
      (⟨2, 0, 0⟩, Quat.identity.invert) ∧
    (onMount true ⟨5, 0, 0⟩ Quat.identity
        [⟨⟨1, 0, 0⟩, Quat.identity, true⟩,
         ⟨⟨2, 0, 0⟩, Quat.identity, true⟩]).1.translationWrtParent =
      (⟨5, 0, 0⟩ : Vec3).sub ⟨2, 0, 0⟩ := by
  have h : (([⟨⟨1, 0, 0⟩, Quat.identity, true⟩,
      ⟨⟨2, 0, 0⟩, Quat.identity, true⟩] : List Ancestor).filter
        (fun x => x.isRigidBody)).getLast? =
      some ⟨⟨2, 0, 0⟩, Quat.identity, true⟩ := by decide
  have hmain := attached_pose_wrt_last_anchor
    [⟨⟨1, 0, 0⟩, Quat.identity, true⟩, ⟨⟨2, 0, 0⟩, Quat.identity, true⟩]
    ⟨⟨2, 0, 0⟩, Quat.identity, true⟩ ⟨5, 0, 0⟩ Quat.identity h
  exact ⟨h, hmain.1, hmain.2.1⟩

/-- Claim C10: in attached mode, with no ancestor flagged as a rigid body,
the relative pose passed to the engine is the node's own world position and
world rotation unchanged: the captured position stays zero and the captured
quaternion stays the identity. -/
theorem attached_pose_without_anchor (objPos : Vec3) (objQuat : Quat)
    (ancestors : List Ancestor) (h : ∀ a ∈ ancestors, a.isRigidBody = false) :
    (onMount true objPos objQuat ancestors).1.translationWrtParent = objPos ∧
    (onMount true objPos objQuat ancestors).1.rotationWrtParent = objQuat := by
  have hc : traverseCapture ancestors = (Vec3.zero, Quat.identity) :=
    captureFold_noAnchor ancestors (Vec3.zero, Quat.identity) h
  constructor
  · simp [onMount, hc, ColliderState.setTranslationWrtParent,
      ColliderState.setRotationWrtParent, Vec3.sub, Vec3.zero]
  · simp [onMount, hc, ColliderState.setTranslationWrtParent,
      ColliderState.setRotationWrtParent, Quat.mul, Quat.identity]

/-- Witness for claim C10: a single unflagged ancestor, a node at (7,8,9)
with a non-trivial rotation: the relative pose is the node's own pose. -/
theorem attached_pose_without_anchor_witness :
    (onMount true ⟨7, 8, 9⟩ ⟨1, 2, 3, 4⟩
        [⟨⟨1, 2, 3⟩, Quat.identity, false⟩]).1.translationWrtParent = ⟨7, 8, 9⟩ ∧
    (onMount true ⟨7, 8, 9⟩ ⟨1, 2, 3, 4⟩
        [⟨⟨1, 2, 3⟩, Quat.identity, false⟩]).1.rotationWrtParent = ⟨1, 2, 3, 4⟩ :=
  attached_pose_without_anchor ⟨7, 8, 9⟩ ⟨1, 2, 3, 4⟩
    [⟨⟨1, 2, 3⟩, Quat.identity, false⟩] (by decide)

end ThrelteRapier
